import Mathlib

/-!
Shallow embedding of the estate-ledger property-registry workflow.

The embedding follows the TypeScript source:
- `src/pages/PropertyRegistry.tsx` — registration form validation (`validateForm`);
- `src/pages/TransferProperty.tsx` — transfer form validation (`validateForm`);
- `src/hooks/usePropertyRegistry.ts` — `generatePropertyId`, `simulateTransaction`,
  `uploadDocument`, `registerProperty`, `transferProperty`, `getPropertyById`.

JavaScript strings are modelled as Lean `String`; the regular expressions of the
validators are translated to decidable predicates over the character list, with
`Char.toUpper` / `Char.toLower` standing in for the ASCII fragment of
`String.prototype.toUpperCase` / `toLowerCase` (every literal the code compares
against is ASCII).  Nondeterministic or external effects (the settlement stub,
the Supabase storage and database calls) are supplied by explicit environment
records; a thrown or rejected step is an environment outcome that the embedded
function handles exactly where the source's `try`/`catch` does.
-/

namespace EstateLedger

/-! ### String primitives -/

/-- The JavaScript truthiness test `!s` for an optional string: `null` and the
empty string are falsy. -/
def jsFalsy : Option String → Bool
  | none => true
  | some s => s = ""

/-- The ASCII fragment of `String.prototype.toUpperCase`, as a map over the
character list (kernel-reducible, unlike `String.toUpper`). -/
def jsToUpper (s : String) : String := ⟨s.data.map Char.toUpper⟩

/-- The ASCII fragment of `String.prototype.toLowerCase`. -/
def jsToLower (s : String) : String := ⟨s.data.map Char.toLower⟩

/-- The test `!s.trim()`: true exactly when the string is all whitespace. -/
def blank (s : String) : Bool := s.data.all Char.isWhitespace

/-- The regular expression `^\d{n}$`. -/
def digitsRe (n : Nat) (s : String) : Bool :=
  s.data.length = n && s.data.all Char.isDigit

/-- The regular expression `^[A-Z]{3}\d{7}$` (tested by the voter-ID rule
against the uppercased input). -/
def voterRe (s : String) : Bool :=
  s.data.length = 10 && (s.data.take 3).all Char.isUpper
    && (s.data.drop 3).all Char.isDigit

/-- A hexadecimal digit, either case: the character class `[a-fA-F0-9]`. -/
def hexChar (c : Char) : Bool :=
  c.isDigit || ('a' ≤ c && c ≤ 'f') || ('A' ≤ c && c ≤ 'F')

/-- The wallet-address regular expression `^0x[a-fA-F0-9]{40}$`. -/
def walletRe (s : String) : Bool :=
  s.data.length = 42 && decide (s.data.take 2 = ['0', 'x'])
    && (s.data.drop 2).all hexChar

/-- Split a character list at the first occurrence of `sep`; `none` when `sep`
does not occur. -/
def splitAtFirst (sep : Char) : List Char → Option (List Char × List Char)
  | [] => none
  | c :: cs =>
    if c = sep then some ([], cs)
    else match splitAtFirst sep cs with
      | none => none
      | some (l, r) => some (c :: l, r)

/-- The e-mail regular expression `^[^\s@]+@[^\s@]+\.[^\s@]+$`: no whitespace
anywhere, exactly one `@` with a non-empty local part before it, and a dot in
the domain that is neither its first nor its last character. -/
def emailRe (s : String) : Bool :=
  let l := s.data
  l.all (fun c => !c.isWhitespace) && l.count '@' = 1 &&
    match splitAtFirst '@' l with
    | none => false
    | some (loc, dom) => !loc.isEmpty && ((dom.drop 1).dropLast.contains '.')

/-! ### Error maps

A `Record<string, string>` built by a sequence of conditional assignments
`if cond then errors.key = msg`.  Assigning an existing key overwrites its
value in place; a new key is appended. -/

/-- One JavaScript object assignment `m[k] = v`. -/
def recInsert (m : List (String × String)) (k v : String) :
    List (String × String) :=
  if m.any (fun p => p.1 = k) then
    m.map (fun p => if p.1 = k then (k, v) else p)
  else m ++ [(k, v)]

/-- One validation rule: a failure condition, the field key, the message. -/
def applyRule (m : List (String × String)) (r : Bool × String × String) :
    List (String × String) :=
  if r.1 then recInsert m r.2.1 r.2.2 else m

/-- Run a list of rules in order against an initially empty error map. -/
def runRules (rs : List (Bool × String × String)) : List (String × String) :=
  rs.foldl applyRule []

/-- Whether the error map holds an entry for field `k`. -/
def hasKey (m : List (String × String)) (k : String) : Bool :=
  m.any (fun p => p.1 = k)

/-! ### Form data -/

/-- `PropertyFormData` from `src/types/property.ts`. -/
structure PropertyFormData where
  ownerName : String
  aadhaarNumber : String
  voterId : String
  phone : String
  email : String
  landAddress : String
  landArea : String
  surveyNumber : String
  district : String
  state : String
deriving DecidableEq

/-- `PropertyDocuments`: a `File | null` slot is modelled by its presence. -/
structure PropertyDocuments where
  aadhaarFront : Bool
  aadhaarBack : Bool
  panCard : Bool
  ownerPhoto : Bool
  propertyPhoto : Bool
  ownershipDocument : Bool
deriving DecidableEq

/-- `TransferFormData` from `src/types/property.ts`. -/
structure TransferFormData where
  propertyId : String
  sellerName : String
  sellerWallet : String
  sellerPhone : String
  sellerEmail : String
  buyerName : String
  buyerWallet : String
  buyerPhone : String
  buyerEmail : String
deriving DecidableEq

/-- `TransferDocuments`: presence of the seven transfer attachments. -/
structure TransferDocuments where
  sellerAadhaar : Bool
  sellerPan : Bool
  sellerPhoto : Bool
  buyerAadhaar : Bool
  buyerPan : Bool
  buyerPhoto : Bool
  saleAgreement : Bool
deriving DecidableEq

/-! ### Validators

The two `validateForm` functions, as ordered rule lists: each entry is the
source's failure condition together with the key and message it assigns. -/

/-- The conditional assignments of `validateForm` in `PropertyRegistry.tsx`,
in source order. -/
def registrationRules (d : PropertyFormData) (docs : PropertyDocuments) :
    List (Bool × String × String) :=
  [ (blank d.ownerName, "ownerName", "Owner name is required"),
    (!digitsRe 12 d.aadhaarNumber, "aadhaarNumber", "Aadhaar must be 12 digits"),
    (!voterRe (jsToUpper d.voterId), "voterId",
      "Invalid Voter ID format (e.g., ABC1234567)"),
    (!digitsRe 10 d.phone, "phone", "Phone must be 10 digits"),
    (!emailRe d.email, "email", "Invalid email address"),
    (blank d.landAddress, "landAddress", "Land address is required"),
    (blank d.landArea, "landArea", "Land area is required"),
    (blank d.surveyNumber, "surveyNumber", "Survey number is required"),
    (blank d.district, "district", "District is required"),
    (blank d.state, "state", "State is required"),
    (!docs.aadhaarFront, "aadhaarFront", "Aadhaar front is required"),
    (!docs.aadhaarBack, "aadhaarBack", "Aadhaar back is required"),
    (!docs.panCard, "panCard", "PAN card is required"),
    (!docs.ownerPhoto, "ownerPhoto", "Owner photograph is required"),
    (!docs.propertyPhoto, "propertyPhoto", "Property photograph is required"),
    (!docs.ownershipDocument, "ownershipDocument", "Ownership document is required") ]

/-- `validateForm` of `PropertyRegistry.tsx`. -/
def validateRegistrationForm (d : PropertyFormData) (docs : PropertyDocuments) :
    List (String × String) :=
  runRules (registrationRules d docs)

/-- The conditional assignments of `validateForm` in `TransferProperty.tsx`,
in source order.  Note that the wallets-differ rule writes the same
`buyerWallet` key as the buyer-wallet format rule. -/
def transferRules (d : TransferFormData) (docs : TransferDocuments) :
    List (Bool × String × String) :=
  [ (blank d.propertyId, "propertyId", "Property ID is required"),
    (blank d.sellerName, "sellerName", "Seller name is required"),
    (!walletRe d.sellerWallet, "sellerWallet", "Invalid wallet address"),
    (!digitsRe 10 d.sellerPhone, "sellerPhone", "Phone must be 10 digits"),
    (!emailRe d.sellerEmail, "sellerEmail", "Invalid email address"),
    (blank d.buyerName, "buyerName", "Buyer name is required"),
    (!walletRe d.buyerWallet, "buyerWallet", "Invalid wallet address"),
    (!digitsRe 10 d.buyerPhone, "buyerPhone", "Phone must be 10 digits"),
    (!emailRe d.buyerEmail, "buyerEmail", "Invalid email address"),
    (decide (d.sellerWallet ≠ "" ∧ d.buyerWallet ≠ "" ∧
        jsToLower d.sellerWallet = jsToLower d.buyerWallet),
      "buyerWallet", "Buyer wallet must be different from seller"),
    (!docs.sellerAadhaar, "sellerAadhaar", "Seller Aadhaar is required"),
    (!docs.sellerPan, "sellerPan", "Seller PAN is required"),
    (!docs.sellerPhoto, "sellerPhoto", "Seller photograph is required"),
    (!docs.buyerAadhaar, "buyerAadhaar", "Buyer Aadhaar is required"),
    (!docs.buyerPan, "buyerPan", "Buyer PAN is required"),
    (!docs.buyerPhoto, "buyerPhoto", "Buyer photograph is required"),
    (!docs.saleAgreement, "saleAgreement", "Sale agreement is required") ]

/-- `validateForm` of `TransferProperty.tsx`. -/
def validateTransferForm (d : TransferFormData) (docs : TransferDocuments) :
    List (String × String) :=
  runRules (transferRules d docs)

/-! ### Persisted rows and session records

Database-generated identifiers and timestamps are modelled as naturals chosen
by the environment; both lists in `HookState` are kept newest-first, matching
the `order by created_at descending` reads and the prepending local updates. -/

/-- Land details shared by `RegisteredProperty` and `ReceiptData`. -/
structure LandDetails where
  address : String
  area : String
  surveyNumber : String
  district : String
  state : String
deriving DecidableEq

/-- A row of the `properties` table. -/
structure PropertyRow where
  id : Nat
  property_id : String
  owner_name : String
  owner_wallet : String
  aadhaar_number : String
  voter_id : String
  phone : String
  email : String
  land_address : String
  land_area : String
  survey_number : String
  district : String
  state : String
  transaction_hash : String
  block_number : Nat
  created_at : Nat
  aadhaar_front_url : Option String
  aadhaar_back_url : Option String
  pan_card_url : Option String
  owner_photo_url : Option String
  property_photo_url : Option String
  ownership_document_url : Option String
deriving DecidableEq

/-- A row of the `transfers` table. -/
structure TransferRow where
  id : Nat
  property_id : String
  seller_name : String
  seller_wallet : String
  seller_phone : String
  seller_email : String
  buyer_name : String
  buyer_wallet : String
  buyer_phone : String
  buyer_email : String
  transaction_hash : String
  block_number : Nat
  created_at : Nat
deriving DecidableEq

/-- `RegisteredProperty` from `src/types/property.ts`. -/
structure RegisteredProperty where
  id : Nat
  propertyId : String
  ownerName : String
  ownerAddress : String
  landDetails : LandDetails
  registrationDate : Nat
  transactionHash : String
  blockNumber : Nat
deriving DecidableEq

/-- `TransferRecord` from `src/types/property.ts`. -/
structure TransferRecord where
  id : Nat
  propertyId : String
  fromAddress : String
  toAddress : String
  sellerName : String
  buyerName : String
  transferDate : Nat
  transactionHash : String
  blockNumber : Nat
deriving DecidableEq

/-- `ReceiptData` from `src/types/property.ts`; the optional parties fields
cover both the registration and the transfer shape. -/
structure ReceiptData where
  type : String
  propertyId : String
  propertyDetails : LandDetails
  owner : Option String
  seller : Option String
  buyer : Option String
  ownerWallet : Option String
  sellerWallet : Option String
  buyerWallet : Option String
  hash : String
  blockNumber : Nat
deriving DecidableEq

/-- The mutable state visible to the hook: the two database tables and the
hook's local React state. -/
structure HookState where
  isProcessing : Bool
  dbProperties : List PropertyRow
  dbTransfers : List TransferRow
  properties : List RegisteredProperty
  transfers : List TransferRecord
  currentReceipt : Option ReceiptData
deriving DecidableEq

/-- The result of one `registerProperty` or `transferProperty` call: the
returned receipt (`null` on failure), the toast title shown to the user, and
the state after the call. -/
structure OpResult where
  receipt : Option ReceiptData
  toastTitle : String
  state : HookState
deriving DecidableEq

/-! ### Environments

Each call consumes an environment describing how the external world behaves
during it: what `generatePropertyId` produces, whether `simulateTransaction`
resolves and with what reference, which storage uploads succeed, and whether
the database calls succeed.  A `none` or `false` outcome stands for the
promise rejection that the source's `catch` block handles. -/

/-- The outcome of one storage upsert. -/
inductive UploadOutcome where
  | err
  | ok (url : String)
deriving DecidableEq

/-- Storage behaviour during one registration: the outcome of the upsert for
each object path `propertyId/docType`. -/
structure StorageEnv where
  upload : String → UploadOutcome

/-- Environment of one `registerProperty` call. -/
structure RegEnv where
  genId : String
  settle : Option (String × Nat)
  storage : StorageEnv
  insertOk : Bool
  rowId : Nat
  now : Nat

/-- Environment of one `transferProperty` call. -/
structure TransEnv where
  fetchOk : Bool
  settle : Option (String × Nat)
  insertOk : Bool
  updateOk : Bool
  rowId : Nat
  now : Nat

/-! ### Operations -/

/-- `uploadDocument` of `usePropertyRegistry.ts`: upsert the file under
`propertyId/docType`; on a storage error, log and return `null`; on success
return the public URL.  The file's extension is elided (file contents are
opaque in the model). -/
def uploadDocument (env : StorageEnv) (propertyId docType : String) :
    Option String :=
  match env.upload (propertyId ++ "/" ++ docType) with
  | .err => none
  | .ok url => some url

/-- The URL column value for one document slot of the insert payload: absent
documents contribute no key (the column stays null) and a failed upload
contributes a null value. -/
def docColumn (env : StorageEnv) (propertyId : String) (present : Bool)
    (docType : String) : Option String :=
  if present then uploadDocument env propertyId docType else none

/-- The `properties` row inserted by `registerProperty`, including the
best-effort document URL columns. -/
def regRow (env : RegEnv) (addr : String) (formData : PropertyFormData)
    (docs : PropertyDocuments) (hash : String) (blockNumber : Nat) :
    PropertyRow :=
  { id := env.rowId
    property_id := env.genId
    owner_name := formData.ownerName
    owner_wallet := addr
    aadhaar_number := formData.aadhaarNumber
    voter_id := formData.voterId
    phone := formData.phone
    email := formData.email
    land_address := formData.landAddress
    land_area := formData.landArea
    survey_number := formData.surveyNumber
    district := formData.district
    state := formData.state
    transaction_hash := hash
    block_number := blockNumber
    created_at := env.now
    aadhaar_front_url :=
      docColumn env.storage env.genId docs.aadhaarFront "aadhaar-front"
    aadhaar_back_url :=
      docColumn env.storage env.genId docs.aadhaarBack "aadhaar-back"
    pan_card_url :=
      docColumn env.storage env.genId docs.panCard "pan-card"
    owner_photo_url :=
      docColumn env.storage env.genId docs.ownerPhoto "owner-photo"
    property_photo_url :=
      docColumn env.storage env.genId docs.propertyPhoto "property-photo"
    ownership_document_url :=
      docColumn env.storage env.genId docs.ownershipDocument
        "ownership-document" }

/-- The `RegisteredProperty` session record built after a successful insert. -/
def regNewProperty (env : RegEnv) (addr : String) (formData : PropertyFormData)
    (hash : String) (blockNumber : Nat) : RegisteredProperty :=
  { id := env.rowId
    propertyId := env.genId
    ownerName := formData.ownerName
    ownerAddress := addr
    landDetails :=
      { address := formData.landAddress
        area := formData.landArea
        surveyNumber := formData.surveyNumber
        district := formData.district
        state := formData.state }
    registrationDate := env.now
    transactionHash := hash
    blockNumber := blockNumber }

/-- The registration receipt. -/
def regReceipt (env : RegEnv) (addr : String) (formData : PropertyFormData)
    (hash : String) (blockNumber : Nat) : ReceiptData :=
  { type := "registration"
    propertyId := env.genId
    propertyDetails := (regNewProperty env addr formData hash blockNumber).landDetails
    owner := some formData.ownerName
    seller := none
    buyer := none
    ownerWallet := some addr
    sellerWallet := none
    buyerWallet := none
    hash := hash
    blockNumber := blockNumber }

/-- `registerProperty` of `usePropertyRegistry.ts`.  The guard, the settlement
call, the best-effort document uploads, the insert (whose duplicate-key
failure is determined by the `property_id` unique constraint), the local-state
updates and the receipt follow the source line by line; every thrown step
lands in the `catch` branch, which shows the generic failure toast and
returns `null`, and the `finally` reset of `isProcessing` is applied on every
path that entered the `try`. -/
def registerProperty (env : RegEnv) (isConnected : Bool)
    (address : Option String) (formData : PropertyFormData)
    (documents : Option PropertyDocuments) (s : HookState) : OpResult :=
  if !isConnected || jsFalsy address then
    { receipt := none, toastTitle := "Wallet not connected", state := s }
  else
    let addr := address.getD ""
    let s1 : HookState := { s with isProcessing := true }
    let propertyId := env.genId
    match env.settle with
    | none =>
      { receipt := none, toastTitle := "Registration Failed",
        state := { s1 with isProcessing := false } }
    | some (hash, blockNumber) =>
      let docs := documents.getD
        ⟨false, false, false, false, false, false⟩
      if s1.dbProperties.any (fun r => r.property_id = propertyId) then
        { receipt := none, toastTitle := "Registration Failed",
          state := { s1 with isProcessing := false } }
      else if !env.insertOk then
        { receipt := none, toastTitle := "Registration Failed",
          state := { s1 with isProcessing := false } }
      else
        let row := regRow env addr formData docs hash blockNumber
        let newProperty := regNewProperty env addr formData hash blockNumber
        let receipt := regReceipt env addr formData hash blockNumber
        { receipt := some receipt
          toastTitle := "Property Registered Successfully!"
          state :=
            { s1 with
              isProcessing := false
              dbProperties := row :: s1.dbProperties
              properties := newProperty :: s1.properties
              currentReceipt := some receipt } }

/-- The `transfers` row inserted by `transferProperty`. -/
def transRow (env : TransEnv) (formData : TransferFormData) (hash : String)
    (blockNumber : Nat) : TransferRow :=
  { id := env.rowId
    property_id := formData.propertyId
    seller_name := formData.sellerName
    seller_wallet := formData.sellerWallet
    seller_phone := formData.sellerPhone
    seller_email := formData.sellerEmail
    buyer_name := formData.buyerName
    buyer_wallet := formData.buyerWallet
    buyer_phone := formData.buyerPhone
    buyer_email := formData.buyerEmail
    transaction_hash := hash
    block_number := blockNumber
    created_at := env.now }

/-- The `TransferRecord` session record built after a successful transfer. -/
def transNewRecord (env : TransEnv) (formData : TransferFormData)
    (hash : String) (blockNumber : Nat) : TransferRecord :=
  { id := env.rowId
    propertyId := formData.propertyId
    fromAddress := formData.sellerWallet
    toAddress := formData.buyerWallet
    sellerName := formData.sellerName
    buyerName := formData.buyerName
    transferDate := env.now
    transactionHash := hash
    blockNumber := blockNumber }

/-- The transfer receipt; the land details echo the fetched property row. -/
def transReceipt (formData : TransferFormData) (property : PropertyRow)
    (hash : String) (blockNumber : Nat) : ReceiptData :=
  { type := "transfer"
    propertyId := formData.propertyId
    propertyDetails :=
      { address := property.land_address
        area := property.land_area
        surveyNumber := property.survey_number
        district := property.district
        state := property.state }
    owner := none
    seller := some formData.sellerName
    buyer := some formData.buyerName
    ownerWallet := none
    sellerWallet := some formData.sellerWallet
    buyerWallet := some formData.buyerWallet
    hash := hash
    blockNumber := blockNumber }

/-- `transferProperty` of `usePropertyRegistry.ts`: guard, fetch the property
by `property_id`, `NotFound` and ownership checks, settlement, transfer-row
insert, property-owner update, local-state updates, receipt.  The owner update
failing after the transfer row committed leaves that row in place, as in the
source. -/
def transferProperty (env : TransEnv) (isConnected : Bool)
    (address : Option String) (formData : TransferFormData) (s : HookState) :
    OpResult :=
  if !isConnected || jsFalsy address then
    { receipt := none, toastTitle := "Wallet not connected", state := s }
  else
    let addr := address.getD ""
    let s1 : HookState := { s with isProcessing := true }
    if !env.fetchOk then
      { receipt := none, toastTitle := "Transfer Failed",
        state := { s1 with isProcessing := false } }
    else
      match s1.dbProperties.find? (fun r => r.property_id = formData.propertyId) with
      | none =>
        { receipt := none, toastTitle := "Property Not Found",
          state := { s1 with isProcessing := false } }
      | some property =>
        if jsToLower property.owner_wallet ≠ jsToLower addr then
          { receipt := none, toastTitle := "Unauthorized",
            state := { s1 with isProcessing := false } }
        else
          match env.settle with
          | none =>
            { receipt := none, toastTitle := "Transfer Failed",
              state := { s1 with isProcessing := false } }
          | some (hash, blockNumber) =>
            if !env.insertOk then
              { receipt := none, toastTitle := "Transfer Failed",
                state := { s1 with isProcessing := false } }
            else
              let dbTransfer := transRow env formData hash blockNumber
              let s2 : HookState :=
                { s1 with dbTransfers := dbTransfer :: s1.dbTransfers }
              if !env.updateOk then
                { receipt := none, toastTitle := "Transfer Failed",
                  state := { s2 with isProcessing := false } }
              else
                let s3 : HookState :=
                  { s2 with
                    dbProperties := s2.dbProperties.map fun r =>
                      if r.property_id = formData.propertyId then
                        { r with
                          owner_name := formData.buyerName
                          owner_wallet := formData.buyerWallet }
                      else r }
                let transfer := transNewRecord env formData hash blockNumber
                let receipt := transReceipt formData property hash blockNumber
                { receipt := some receipt
                  toastTitle := "Transfer Successful!"
                  state :=
                    { s3 with
                      isProcessing := false
                      properties := s3.properties.map fun p =>
                        if p.propertyId = formData.propertyId then
                          { p with
                            ownerAddress := formData.buyerWallet
                            ownerName := formData.buyerName }
                        else p
                      transfers := transfer :: s3.transfers
                      currentReceipt := some receipt } }

/-- `getPropertyById` of `usePropertyRegistry.ts`: first match in the hook's
local property list. -/
def getPropertyById (s : HookState) (propertyId : String) :
    Option RegisteredProperty :=
  s.properties.find? (fun p => p.propertyId = propertyId)

/-- `handleSubmit` of `TransferProperty.tsx`: run the validator and call
`transferProperty` only when the error map is empty. -/
def submitTransfer (env : TransEnv) (isConnected : Bool)
    (address : Option String) (formData : TransferFormData)
    (docs : TransferDocuments) (s : HookState) : OpResult :=
  if validateTransferForm formData docs ≠ [] then
    { receipt := none, toastTitle := "Validation Error", state := s }
  else transferProperty env isConnected address formData s

/-- `handleSubmit` of `PropertyRegistry.tsx`: run the validator and call
`registerProperty` only when the error map is empty. -/
def submitRegistration (env : RegEnv) (isConnected : Bool)
    (address : Option String) (formData : PropertyFormData)
    (docs : PropertyDocuments) (s : HookState) : OpResult :=
  if validateRegistrationForm formData docs ≠ [] then
    { receipt := none, toastTitle := "Validation Error", state := s }
  else registerProperty env isConnected address formData (some docs) s

/-! ### Concrete fixtures

Closed sample inputs used by the counterexamples and witnesses. -/

/-- A complete set of registration documents. -/
def allRegDocs : PropertyDocuments := ⟨true, true, true, true, true, true⟩

/-- A complete set of transfer documents. -/
def allTransferDocs : TransferDocuments := ⟨true, true, true, true, true, true, true⟩

/-- A valid wallet address (40 hex characters after the `0x` prefix). -/
def walletA : String := "0xaaaaaaaaaaaaaaaaaaaaaaaaaaaaaaaaaaaaaaaa"

/-- A second valid wallet address. -/
def walletB : String := "0xbbbbbbbbbbbbbbbbbbbbbbbbbbbbbbbbbbbbbbbb"

/-- A third valid wallet address. -/
def walletC : String := "0xcccccccccccccccccccccccccccccccccccccccc"

/-- A transfer form that passes every validation rule; its seller wallet is
`walletA`, which is not the owner wallet of `ownerRow`. -/
def validTransferForm : TransferFormData :=
  { propertyId := "PROP-1", sellerName := "Seller", sellerWallet := walletA,
    sellerPhone := "0123456789", sellerEmail := "a@b.c",
    buyerName := "Buyer", buyerWallet := walletC,
    buyerPhone := "0123456789", buyerEmail := "a@b.c" }

/-- A stored property owned by `walletB`. -/
def ownerRow : PropertyRow :=
  { id := 0, property_id := "PROP-1", owner_name := "Owner",
    owner_wallet := walletB, aadhaar_number := "123456789012",
    voter_id := "ABC1234567", phone := "0123456789", email := "a@b.c",
    land_address := "12 Hill Road", land_area := "1000 sqft",
    survey_number := "SY-1", district := "Pune", state := "MH",
    transaction_hash := "0xh1", block_number := 1, created_at := 0,
    aadhaar_front_url := none, aadhaar_back_url := none, pan_card_url := none,
    owner_photo_url := none, property_photo_url := none,
    ownership_document_url := none }

/-- The session record of `ownerRow` as the mount-time fetch maps it. -/
def ownerRecord : RegisteredProperty :=
  { id := 0, propertyId := "PROP-1", ownerName := "Owner",
    ownerAddress := walletB,
    landDetails :=
      { address := "12 Hill Road", area := "1000 sqft",
        surveyNumber := "SY-1", district := "Pune", state := "MH" },
    registrationDate := 0, transactionHash := "0xh1", blockNumber := 1 }

/-- A quiescent session holding exactly `ownerRow`, locally in sync. -/
def baseState : HookState :=
  { isProcessing := false, dbProperties := [ownerRow], dbTransfers := [],
    properties := [ownerRecord], transfers := [], currentReceipt := none }

/-- A transfer environment in which every external step succeeds. -/
def okTransEnv : TransEnv :=
  { fetchOk := true, settle := some ("0xh2", 2), insertOk := true,
    updateOk := true, rowId := 1, now := 5 }

/-- A transfer form whose two wallet fields both fail the format rule and are
case-insensitively equal, so the format rule and the wallets-differ rule both
fire on the `buyerWallet` key. -/
def clashTransferForm : TransferFormData :=
  { propertyId := "PROP-1", sellerName := "Seller", sellerWallet := "0xg",
    sellerPhone := "0123456789", sellerEmail := "a@b.c",
    buyerName := "Buyer", buyerWallet := "0xG",
    buyerPhone := "0123456789", buyerEmail := "a@b.c" }

/-- A registration form that is valid except that its voter ID is written in
lower case. -/
def lowerVoterForm : PropertyFormData :=
  { ownerName := "Owner", aadhaarNumber := "123456789012",
    voterId := "abc1234567", phone := "0123456789", email := "a@b.c",
    landAddress := "12 Hill Road", landArea := "1000 sqft",
    surveyNumber := "SY-1", district := "Pune", state := "MH" }

/-- A fully valid registration form. -/
def validRegForm : PropertyFormData :=
  { lowerVoterForm with voterId := "ABC1234567" }

/-- A registration environment in which every external step succeeds. -/
def okRegEnv : RegEnv :=
  { genId := "PROP-2", settle := some ("0xh3", 3),
    storage := ⟨fun _ => .ok "https://cdn/doc"⟩, insertOk := true,
    rowId := 2, now := 9 }

/-- A registration environment whose storage rejects every upload. -/
def failStorageRegEnv : RegEnv := { okRegEnv with storage := ⟨fun _ => .err⟩ }

/-- A registration environment whose generated id collides with `ownerRow`. -/
def dupRegEnv : RegEnv := { okRegEnv with genId := "PROP-1" }

/-- A registration environment whose settlement step fails. -/
def noSettleRegEnv : RegEnv := { okRegEnv with settle := none }

/-- A transfer form naming a property id that is not registered. -/
def missingTransferForm : TransferFormData :=
  { validTransferForm with propertyId := "PROP-9" }

/-! ### Character-level lemmas

The validators uppercase the voter ID before testing it, so facts about
`Char.toUpper` on the ASCII ranges are needed. -/

theorem toNat_ofNat_valid (n : Nat) (h : n.isValidChar) :
    (Char.ofNat n).toNat = n := by
  rw [Char.ofNat, dif_pos h]
  rfl

theorem isUpper_iff (c : Char) : c.isUpper = true ↔ 65 ≤ c.toNat ∧ c.toNat ≤ 90 := by
  unfold Char.isUpper
  rw [Bool.and_eq_true]
  exact ⟨fun ⟨h1, h2⟩ => ⟨of_decide_eq_true h1, of_decide_eq_true h2⟩,
    fun ⟨h1, h2⟩ => ⟨decide_eq_true h1, decide_eq_true h2⟩⟩

theorem isLower_iff (c : Char) : c.isLower = true ↔ 97 ≤ c.toNat ∧ c.toNat ≤ 122 := by
  unfold Char.isLower
  rw [Bool.and_eq_true]
  exact ⟨fun ⟨h1, h2⟩ => ⟨of_decide_eq_true h1, of_decide_eq_true h2⟩,
    fun ⟨h1, h2⟩ => ⟨decide_eq_true h1, decide_eq_true h2⟩⟩

theorem isDigit_iff (c : Char) : c.isDigit = true ↔ 48 ≤ c.toNat ∧ c.toNat ≤ 57 := by
  unfold Char.isDigit
  rw [Bool.and_eq_true]
  exact ⟨fun ⟨h1, h2⟩ => ⟨of_decide_eq_true h1, of_decide_eq_true h2⟩,
    fun ⟨h1, h2⟩ => ⟨decide_eq_true h1, decide_eq_true h2⟩⟩

theorem toNat_toUpper (c : Char) :
    (Char.toUpper c).toNat =
      if 97 ≤ c.toNat ∧ c.toNat ≤ 122 then c.toNat - 32 else c.toNat := by
  unfold Char.toUpper
  by_cases h : 97 ≤ c.toNat ∧ c.toNat ≤ 122
  · rw [if_pos h, if_pos ⟨h.1, h.2⟩]
    exact toNat_ofNat_valid _ (Or.inl (by omega))
  · rw [if_neg h, if_neg h]

theorem isUpper_toUpper (c : Char) : (Char.toUpper c).isUpper = c.isAlpha := by
  have ht := toNat_toUpper c
  by_cases hc : 97 ≤ c.toNat ∧ c.toNat ≤ 122
  · rw [if_pos hc] at ht
    have h1 : (Char.toUpper c).isUpper = true := (isUpper_iff _).mpr (by omega)
    have h2 : c.isAlpha = true := by
      unfold Char.isAlpha
      rw [Bool.or_eq_true]
      exact Or.inr ((isLower_iff c).mpr (by omega))
    rw [h1, h2]
  · rw [if_neg hc] at ht
    have hl : c.isLower = false := by
      rw [Bool.eq_false_iff, Ne, isLower_iff]
      exact hc
    unfold Char.isAlpha
    rw [hl, Bool.or_false]
    rcases Bool.eq_false_or_eq_true c.isUpper with hu | hu <;> rw [hu]
    · rw [isUpper_iff] at hu ⊢
      omega
    · rw [Bool.eq_false_iff, Ne, isUpper_iff] at hu
      rw [Bool.eq_false_iff, Ne, isUpper_iff]
      intro hh
      exact hu (by omega)

theorem isDigit_toUpper (c : Char) : (Char.toUpper c).isDigit = c.isDigit := by
  have ht := toNat_toUpper c
  by_cases hc : 97 ≤ c.toNat ∧ c.toNat ≤ 122
  · rw [if_pos hc] at ht
    have h1 : (Char.toUpper c).isDigit = false := by
      rw [Bool.eq_false_iff, Ne, isDigit_iff]
      omega
    have h2 : c.isDigit = false := by
      rw [Bool.eq_false_iff, Ne, isDigit_iff]
      omega
    rw [h1, h2]
  · rw [if_neg hc] at ht
    rcases Bool.eq_false_or_eq_true c.isDigit with hd | hd <;> rw [hd]
    · rw [isDigit_iff] at hd ⊢
      omega
    · rw [Bool.eq_false_iff, Ne, isDigit_iff] at hd
      rw [Bool.eq_false_iff, Ne, isDigit_iff]
      intro hh
      exact hd (by omega)

/-- The voter-ID regular expression applied to the uppercased input accepts
exactly length-10 strings of 3 ASCII letters (either case) and 7 digits. -/
theorem voterRe_jsToUpper (s : String) :
    voterRe (jsToUpper s) =
      (s.data.length = 10 && (s.data.take 3).all Char.isAlpha
        && (s.data.drop 3).all Char.isDigit : Bool) := by
  unfold voterRe jsToUpper
  show (_ : Bool) = _
  have hdata : (String.mk (s.data.map Char.toUpper)).data = s.data.map Char.toUpper := rfl
  rw [hdata, List.length_map, ← List.map_take, ← List.map_drop,
    List.all_map, List.all_map]
  have h1 : (Char.isUpper ∘ Char.toUpper) = Char.isAlpha := by
    funext c
    exact isUpper_toUpper c
  have h2 : (Char.isDigit ∘ Char.toUpper) = Char.isDigit := by
    funext c
    exact isDigit_toUpper c
  rw [h1, h2]

/-! ### Error-map lemmas

The validators build their error map by folding conditional assignments, so
emptiness and key-presence reduce to quantification over the rule list. -/

theorem recInsert_ne_nil (m : List (String × String)) (k v : String) :
    recInsert m k v ≠ [] := by
  unfold recInsert
  split
  · intro hmap
    rw [List.map_eq_nil_iff] at hmap
    subst hmap
    simp at *
  · intro happ
    exact absurd (List.append_eq_nil.mp happ).2 (by simp)

theorem foldl_applyRule_eq_nil (rs : List (Bool × String × String))
    (m : List (String × String)) :
    rs.foldl applyRule m = [] ↔ m = [] ∧ ∀ r ∈ rs, r.1 = false := by
  induction rs generalizing m with
  | nil => simp
  | cons r rs ih =>
    rw [List.foldl_cons, ih]
    constructor
    · rintro ⟨h1, h2⟩
      unfold applyRule at h1
      by_cases hr : r.1 = true
      · rw [if_pos hr] at h1
        exact absurd h1 (recInsert_ne_nil _ _ _)
      · rw [if_neg hr] at h1
        refine ⟨h1, ?_⟩
        intro x hx
        rcases List.mem_cons.mp hx with he | hm
        · subst he
          exact Bool.not_eq_true _ |>.mp hr
        · exact h2 x hm
    · rintro ⟨h1, h2⟩
      have hr := h2 r (List.mem_cons_self r rs)
      refine ⟨?_, fun x hx => h2 x (List.mem_cons_of_mem r hx)⟩
      unfold applyRule
      rw [hr]
      simpa using h1

theorem runRules_eq_nil (rs : List (Bool × String × String)) :
    runRules rs = [] ↔ ∀ r ∈ rs, r.1 = false := by
  unfold runRules
  rw [foldl_applyRule_eq_nil]
  simp

theorem hasKey_recInsert (m : List (String × String)) (k v k' : String) :
    hasKey (recInsert m k v) k' = (hasKey m k' || decide (k = k')) := by
  unfold hasKey recInsert
  by_cases hex : m.any (fun p => p.1 = k) = true
  · rw [if_pos hex, List.any_map]
    by_cases hk : k = k'
    · subst hk
      simp only [decide_True, Bool.or_true]
      rw [List.any_eq_true] at hex ⊢
      obtain ⟨p, hp, hpk⟩ := hex
      refine ⟨p, hp, ?_⟩
      have hpk' : p.1 = k := of_decide_eq_true hpk
      simp [Function.comp, hpk']
    · simp only [decide_eq_false hk, Bool.or_false]
      congr 1
      funext p
      by_cases hpk : p.1 = k
      · simp [Function.comp, hpk, hk]
      · simp [Function.comp, hpk]
  · rw [if_neg hex, List.any_append]
    simp

theorem hasKey_applyRule (m : List (String × String))
    (r : Bool × String × String) (k : String) :
    hasKey (applyRule m r) k = (hasKey m k || (r.1 && decide (r.2.1 = k))) := by
  unfold applyRule
  by_cases hr : r.1 = true
  · rw [if_pos hr, hasKey_recInsert, hr, Bool.true_and]
  · rw [if_neg hr, Bool.not_eq_true _ |>.mp hr, Bool.false_and, Bool.or_false]

theorem hasKey_foldl (rs : List (Bool × String × String))
    (m : List (String × String)) (k : String) :
    hasKey (rs.foldl applyRule m) k =
      (hasKey m k || rs.any fun r => r.1 && decide (r.2.1 = k)) := by
  induction rs generalizing m with
  | nil => simp
  | cons r rs ih =>
    rw [List.foldl_cons, ih, hasKey_applyRule, List.any_cons, Bool.or_assoc]

theorem hasKey_runRules (rs : List (Bool × String × String)) (k : String) :
    hasKey (runRules rs) k = rs.any fun r => r.1 && decide (r.2.1 = k) := by
  unfold runRules
  rw [hasKey_foldl]
  rfl

/-! ### Claim C6 -/

/-- Claim C6 counterexample: the transfer validator does not give every
failing rule its own entry.  On `clashTransferForm` three rules fail (the
seller-wallet format rule, the buyer-wallet format rule and the
wallets-must-differ rule) but the error map holds only two entries: the
wallets-must-differ assignment overwrites the buyer-wallet format entry. -/
theorem validator_shared_key_cex :
    (transferRules clashTransferForm allTransferDocs).countP (fun r => r.1) = 3 ∧
    (validateTransferForm clashTransferForm allTransferDocs).length = 2 ∧
    validateTransferForm clashTransferForm allTransferDocs =
      [("sellerWallet", "Invalid wallet address"),
       ("buyerWallet", "Buyer wallet must be different from seller")] := by
  decide

/-- Claim C6 (amended): both validators are pure functions; they return the
empty error map exactly when every one of their rules passes, and a field key
appears in the map exactly when some rule keyed by that field fails — so all
simultaneously failing fields are reported, but two rules sharing a key (the
two `buyerWallet` rules) share one entry. -/
theorem validators_rulewise :
    (∀ (d : PropertyFormData) (docs : PropertyDocuments),
        validateRegistrationForm d docs = [] ↔
          ∀ r ∈ registrationRules d docs, r.1 = false) ∧
    (∀ (d : PropertyFormData) (docs : PropertyDocuments) (k : String),
        hasKey (validateRegistrationForm d docs) k =
          ((registrationRules d docs).any fun r => r.1 && decide (r.2.1 = k))) ∧
    (∀ (d : TransferFormData) (docs : TransferDocuments),
        validateTransferForm d docs = [] ↔
          ∀ r ∈ transferRules d docs, r.1 = false) ∧
    (∀ (d : TransferFormData) (docs : TransferDocuments) (k : String),
        hasKey (validateTransferForm d docs) k =
          ((transferRules d docs).any fun r => r.1 && decide (r.2.1 = k))) := by
  exact ⟨fun d docs => runRules_eq_nil _,
    fun d docs k => hasKey_runRules _ _,
    fun d docs => runRules_eq_nil _,
    fun d docs k => hasKey_runRules _ _⟩

/-! ### Claim C7 -/

/-- Claim C7 counterexample: a lower-case voter ID passes validation.  The
input `abc1234567` is not 3 uppercase letters followed by 7 digits, yet the
registration validator reports no `voterId` error (indeed no error at all),
because the rule uppercases the input before testing it. -/
theorem voter_lowercase_cex :
    voterRe lowerVoterForm.voterId = false ∧
    hasKey (validateRegistrationForm lowerVoterForm allRegDocs) "voterId" = false ∧
    validateRegistrationForm lowerVoterForm allRegDocs = [] := by
  decide

/-- Claim C7 (amended): the voter ID field contributes no error-map entry if
and only if it is exactly 3 ASCII letters — of either case — followed by
exactly 7 digits. -/
theorem voterId_rule_characterization (d : PropertyFormData)
    (docs : PropertyDocuments) :
    hasKey (validateRegistrationForm d docs) "voterId" = false ↔
      d.voterId.data.length = 10 ∧
        (d.voterId.data.take 3).all Char.isAlpha = true ∧
        (d.voterId.data.drop 3).all Char.isDigit = true := by
  unfold validateRegistrationForm
  rw [hasKey_runRules]
  unfold registrationRules
  simp +decide only [List.any_cons, List.any_nil, Bool.and_true, Bool.and_false,
    Bool.or_false, Bool.false_or]
  rw [voterRe_jsToUpper]
  simp [and_assoc]

/-- Witness for the amended C7 theorem at a concrete valid input. -/
theorem voterId_rule_characterization_witness :
    hasKey (validateRegistrationForm validRegForm allRegDocs) "voterId" = false ↔
      validRegForm.voterId.data.length = 10 ∧
        (validRegForm.voterId.data.take 3).all Char.isAlpha = true ∧
        (validRegForm.voterId.data.drop 3).all Char.isDigit = true :=
  voterId_rule_characterization validRegForm allRegDocs

/-! ### Claims C4 and C5 -/

/-- Claim C4: a transfer attempted by an acting identity whose address
differs case-insensitively from the property's current owner wallet fails
with the Unauthorized toast, returns null, and leaves every stored and local
collection unchanged (the result state is the input state with only the
processing flag reset). -/
theorem transfer_unauthorized_no_writes (env : TransEnv) (addr : String)
    (f : TransferFormData) (s : HookState) (property : PropertyRow)
    (hconn : addr ≠ "")
    (hfetch : env.fetchOk = true)
    (hfind : s.dbProperties.find? (fun r => r.property_id = f.propertyId) =
      some property)
    (hown : jsToLower property.owner_wallet ≠ jsToLower addr) :
    transferProperty env true (some addr) f s =
      { receipt := none, toastTitle := "Unauthorized",
        state := { s with isProcessing := false } } := by
  unfold transferProperty
  simp [jsFalsy, hconn, hfetch, hfind, hown]

/-- Witness for C4: `walletC` attempts to transfer `PROP-1`, which `walletB`
owns. -/
theorem transfer_unauthorized_no_writes_witness :
    transferProperty okTransEnv true (some walletC) validTransferForm baseState =
      { receipt := none, toastTitle := "Unauthorized",
        state := { baseState with isProcessing := false } } :=
  transfer_unauthorized_no_writes okTransEnv walletC validTransferForm baseState
    ownerRow (by decide) (by decide) (by decide) (by decide)

/-- Claim C5: a transfer naming a property id with no matching row fails with
the Property Not Found toast, returns null, and performs no store writes. -/
theorem transfer_not_found_no_writes (env : TransEnv) (addr : String)
    (f : TransferFormData) (s : HookState)
    (hconn : addr ≠ "")
    (hfetch : env.fetchOk = true)
    (hfind : s.dbProperties.find? (fun r => r.property_id = f.propertyId) =
      none) :
    transferProperty env true (some addr) f s =
      { receipt := none, toastTitle := "Property Not Found",
        state := { s with isProcessing := false } } := by
  unfold transferProperty
  simp [jsFalsy, hconn, hfetch, hfind]

/-- Witness for C5: transferring the unregistered id `PROP-9`. -/
theorem transfer_not_found_no_writes_witness :
    transferProperty okTransEnv true (some walletB) missingTransferForm baseState =
      { receipt := none, toastTitle := "Property Not Found",
        state := { baseState with isProcessing := false } } :=
  transfer_not_found_no_writes okTransEnv walletB missingTransferForm baseState
    (by decide) (by decide) (by decide)

/-! ### Claims C2 and C3 -/

/-- Claim C2 counterexample: when the generated property id collides with an
existing row, `registerProperty` does not regenerate and retry — the
duplicate-key error is caught by the generic handler, the user is shown the
Registration Failed toast, null is returned, and no row is created. -/
theorem register_duplicate_cex :
    registerProperty dupRegEnv true (some walletB) validRegForm
        (some allRegDocs) baseState =
      { receipt := none, toastTitle := "Registration Failed",
        state := { baseState with isProcessing := false } } := by
  decide

/-- Claim C2 (amended): when the create step fails because the generated
property id already exists, the registration makes no second attempt with a
fresh id; it fails with the generic user-facing Registration Failed error,
returns null, and creates nothing. -/
theorem register_duplicate_fails (env : RegEnv) (addr : String)
    (f : PropertyFormData) (documents : Option PropertyDocuments)
    (s : HookState)
    (hconn : addr ≠ "")
    (hdup : s.dbProperties.any (fun r => r.property_id = env.genId) = true) :
    registerProperty env true (some addr) f documents s =
      { receipt := none, toastTitle := "Registration Failed",
        state := { s with isProcessing := false } } := by
  unfold registerProperty
  cases hsettle : env.settle with
  | none => simp [jsFalsy, hconn]
  | some p =>
    cases p with
    | mk hash bn => simp [jsFalsy, hconn, hdup]

/-- Witness for the amended C2 theorem: `dupRegEnv` generates the already
taken id `PROP-1`. -/
theorem register_duplicate_fails_witness :
    registerProperty dupRegEnv true (some walletB) validRegForm
        (some allRegDocs) baseState =
      { receipt := none, toastTitle := "Registration Failed",
        state := { baseState with isProcessing := false } } :=
  register_duplicate_fails dupRegEnv walletB validRegForm (some allRegDocs)
    baseState (by decide) (by decide)

/-- Claim C3: if the settlement step or the store-create step fails, the
registration fails with the generic user-facing error, returns null, and the
result state is the input state with only the processing flag reset — in
particular no partial Property row exists, and a row is only ever created
together with its settlement transaction reference. -/
theorem registration_atomic (env : RegEnv) (addr : String)
    (f : PropertyFormData) (documents : Option PropertyDocuments)
    (s : HookState)
    (hconn : addr ≠ "")
    (hfail : env.settle = none ∨
      s.dbProperties.any (fun r => r.property_id = env.genId) = true ∨
      env.insertOk = false) :
    registerProperty env true (some addr) f documents s =
      { receipt := none, toastTitle := "Registration Failed",
        state := { s with isProcessing := false } } := by
  unfold registerProperty
  rcases hfail with hsettle | hdup | hins
  · simp [jsFalsy, hconn, hsettle]
  · cases hsettle : env.settle with
    | none => simp [jsFalsy, hconn]
    | some p =>
      cases p with
      | mk hash bn => simp [jsFalsy, hconn, hdup]
  · cases hsettle : env.settle with
    | none => simp [jsFalsy, hconn]
    | some p =>
      cases p with
      | mk hash bn =>
        by_cases hdup : s.dbProperties.any (fun r => r.property_id = env.genId) = true
        · simp [jsFalsy, hconn, hdup]
        · simp [jsFalsy, hconn, hdup, hins]

/-- Witness for C3: settlement fails, nothing is created. -/
theorem registration_atomic_witness :
    registerProperty noSettleRegEnv true (some walletB) validRegForm
        (some allRegDocs) baseState =
      { receipt := none, toastTitle := "Registration Failed",
        state := { baseState with isProcessing := false } } :=
  registration_atomic noSettleRegEnv walletB validRegForm (some allRegDocs)
    baseState (by decide) (Or.inl (by decide))

/-! ### Claim C8 -/

/-- A failed storage upsert leaves the corresponding URL column null. -/
theorem docColumn_err (env : StorageEnv) (pid : String) (present : Bool)
    (docType : String)
    (h : env.upload (pid ++ "/" ++ docType) = UploadOutcome.err) :
    docColumn env pid present docType = none := by
  unfold docColumn uploadDocument
  rw [h]
  split <;> rfl

/-- Claim C8: a storage failure makes `uploadDocument` return null instead of
propagating, and an otherwise-successful registration still creates the
Property row, with that document's URL column left unpopulated; a failed
attachment never aborts the registration. -/
theorem upload_failure_nonfatal (env : RegEnv) (addr : String)
    (f : PropertyFormData) (docs : PropertyDocuments) (s : HookState)
    (hash : String) (bn : Nat)
    (hconn : addr ≠ "")
    (hsettle : env.settle = some (hash, bn))
    (hdup : s.dbProperties.any (fun r => r.property_id = env.genId) = false)
    (hins : env.insertOk = true) :
    (registerProperty env true (some addr) f (some docs) s).receipt =
      some (regReceipt env addr f hash bn) ∧
    (registerProperty env true (some addr) f (some docs) s).state.dbProperties =
      regRow env addr f docs hash bn :: s.dbProperties ∧
    (env.storage.upload (env.genId ++ "/" ++ "aadhaar-front") = UploadOutcome.err →
      (regRow env addr f docs hash bn).aadhaar_front_url = none) ∧
    (env.storage.upload (env.genId ++ "/" ++ "aadhaar-back") = UploadOutcome.err →
      (regRow env addr f docs hash bn).aadhaar_back_url = none) ∧
    (env.storage.upload (env.genId ++ "/" ++ "pan-card") = UploadOutcome.err →
      (regRow env addr f docs hash bn).pan_card_url = none) ∧
    (env.storage.upload (env.genId ++ "/" ++ "owner-photo") = UploadOutcome.err →
      (regRow env addr f docs hash bn).owner_photo_url = none) ∧
    (env.storage.upload (env.genId ++ "/" ++ "property-photo") = UploadOutcome.err →
      (regRow env addr f docs hash bn).property_photo_url = none) ∧
    (env.storage.upload (env.genId ++ "/" ++ "ownership-document") = UploadOutcome.err →
      (regRow env addr f docs hash bn).ownership_document_url = none) ∧
    (∀ pid docType, env.storage.upload (pid ++ "/" ++ docType) = UploadOutcome.err →
      uploadDocument env.storage pid docType = none) := by
  refine ⟨?_, ?_, ?_, ?_, ?_, ?_, ?_, ?_, ?_⟩
  · unfold registerProperty
    simp [jsFalsy, hconn, hsettle, hdup, hins]
  · unfold registerProperty
    simp [jsFalsy, hconn, hsettle, hdup, hins]
  · exact fun h => docColumn_err _ _ _ _ h
  · exact fun h => docColumn_err _ _ _ _ h
  · exact fun h => docColumn_err _ _ _ _ h
  · exact fun h => docColumn_err _ _ _ _ h
  · exact fun h => docColumn_err _ _ _ _ h
  · exact fun h => docColumn_err _ _ _ _ h
  · intro pid docType h
    unfold uploadDocument
    rw [h]

/-- Witness for C8: every upload fails, yet the registration succeeds and all
six URL columns are null. -/
theorem upload_failure_nonfatal_witness :
    (registerProperty failStorageRegEnv true (some walletB) validRegForm
        (some allRegDocs) baseState).receipt =
      some (regReceipt failStorageRegEnv walletB validRegForm "0xh3" 3) ∧
    (registerProperty failStorageRegEnv true (some walletB) validRegForm
        (some allRegDocs) baseState).state.dbProperties =
      regRow failStorageRegEnv walletB validRegForm allRegDocs "0xh3" 3 ::
        baseState.dbProperties ∧
    (failStorageRegEnv.storage.upload ("PROP-2" ++ "/" ++ "aadhaar-front") =
        UploadOutcome.err →
      (regRow failStorageRegEnv walletB validRegForm allRegDocs "0xh3"
        3).aadhaar_front_url = none) ∧
    (failStorageRegEnv.storage.upload ("PROP-2" ++ "/" ++ "aadhaar-back") =
        UploadOutcome.err →
      (regRow failStorageRegEnv walletB validRegForm allRegDocs "0xh3"
        3).aadhaar_back_url = none) ∧
    (failStorageRegEnv.storage.upload ("PROP-2" ++ "/" ++ "pan-card") =
        UploadOutcome.err →
      (regRow failStorageRegEnv walletB validRegForm allRegDocs "0xh3"
        3).pan_card_url = none) ∧
    (failStorageRegEnv.storage.upload ("PROP-2" ++ "/" ++ "owner-photo") =
        UploadOutcome.err →
      (regRow failStorageRegEnv walletB validRegForm allRegDocs "0xh3"
        3).owner_photo_url = none) ∧
    (failStorageRegEnv.storage.upload ("PROP-2" ++ "/" ++ "property-photo") =
        UploadOutcome.err →
      (regRow failStorageRegEnv walletB validRegForm allRegDocs "0xh3"
        3).property_photo_url = none) ∧
    (failStorageRegEnv.storage.upload ("PROP-2" ++ "/" ++ "ownership-document") =
        UploadOutcome.err →
      (regRow failStorageRegEnv walletB validRegForm allRegDocs "0xh3"
        3).ownership_document_url = none) ∧
    (∀ pid docType,
      failStorageRegEnv.storage.upload (pid ++ "/" ++ docType) =
        UploadOutcome.err →
      uploadDocument failStorageRegEnv.storage pid docType = none) :=
  upload_failure_nonfatal failStorageRegEnv walletB validRegForm allRegDocs
    baseState "0xh3" 3 (by decide) (by decide) (by decide) (by decide)


/-! ### Transfer success and failure analysis

Shared helper lemmas: what a successful `transferProperty` run implies, and
shape facts used by several claims. -/


/-- Inversion of a successful owner-initiated transfer: every check passed
and the result is the explicit success record. -/
theorem transfer_success_spec (env : TransEnv) (addr : String)
    (f : TransferFormData) (s : HookState)
    (hconn : addr ≠ "")
    (hsucc : (transferProperty env true (some addr) f s).receipt.isSome = true) :
    ∃ property hash bn,
      env.fetchOk = true ∧
      s.dbProperties.find? (fun r => r.property_id = f.propertyId) =
        some property ∧
      jsToLower property.owner_wallet = jsToLower addr ∧
      env.settle = some (hash, bn) ∧ env.insertOk = true ∧
      env.updateOk = true ∧
      transferProperty env true (some addr) f s =
        { receipt := some (transReceipt f property hash bn)
          toastTitle := "Transfer Successful!"
          state :=
            { isProcessing := false
              dbProperties := s.dbProperties.map fun r =>
                if r.property_id = f.propertyId then
                  { r with
                    owner_name := f.buyerName
                    owner_wallet := f.buyerWallet }
                else r
              dbTransfers := transRow env f hash bn :: s.dbTransfers
              properties := s.properties.map fun p =>
                if p.propertyId = f.propertyId then
                  { p with
                    ownerAddress := f.buyerWallet
                    ownerName := f.buyerName }
                else p
              transfers := transNewRecord env f hash bn :: s.transfers
              currentReceipt := some (transReceipt f property hash bn) } } := by
  by_cases hfetch : env.fetchOk = true
  case neg =>
    have hf : env.fetchOk = false := Bool.not_eq_true _ |>.mp hfetch
    rw [transferProperty] at hsucc
    simp [jsFalsy, hconn, hf] at hsucc
  case pos =>
  cases hfind : s.dbProperties.find? (fun r => r.property_id = f.propertyId) with
  | none =>
    rw [transferProperty] at hsucc
    simp [jsFalsy, hconn, hfetch, hfind] at hsucc
  | some property =>
    by_cases hown : jsToLower property.owner_wallet = jsToLower addr
    case neg =>
      rw [transferProperty] at hsucc
      simp [jsFalsy, hconn, hfetch, hfind, hown] at hsucc
    case pos =>
    cases hsettle : env.settle with
    | none =>
      rw [transferProperty] at hsucc
      simp [jsFalsy, hconn, hfetch, hfind, hown, hsettle] at hsucc
    | some pr =>
      cases pr with
      | mk hash bn =>
        by_cases hins : env.insertOk = true
        case neg =>
          have hi : env.insertOk = false := Bool.not_eq_true _ |>.mp hins
          rw [transferProperty] at hsucc
          simp [jsFalsy, hconn, hfetch, hfind, hown, hsettle, hi] at hsucc
        case pos =>
        by_cases hupd : env.updateOk = true
        case neg =>
          have hu : env.updateOk = false := Bool.not_eq_true _ |>.mp hupd
          rw [transferProperty] at hsucc
          simp [jsFalsy, hconn, hfetch, hfind, hown, hsettle, hins, hu] at hsucc
        case pos =>
          refine ⟨property, hash, bn, hfetch, rfl, hown, rfl, hins, hupd, ?_⟩
          rw [transferProperty]
          simp [jsFalsy, hconn, hfetch, hfind, hown, hsettle, hins, hupd]


/-- A string matching the wallet regular expression is non-empty. -/
theorem walletRe_ne_empty (s : String) (h : walletRe s = true) : s ≠ "" := by
  intro he
  subst he
  exact absurd h (by decide)

/-- A transfer form accepted by the validator has well-formed wallets that
differ case-insensitively. -/
theorem transfer_rules_pass (f : TransferFormData) (docs : TransferDocuments)
    (hvalid : validateTransferForm f docs = []) :
    walletRe f.sellerWallet = true ∧ walletRe f.buyerWallet = true ∧
    jsToLower f.sellerWallet ≠ jsToLower f.buyerWallet := by
  rw [validateTransferForm, runRules_eq_nil] at hvalid
  have hs := hvalid (!walletRe f.sellerWallet, "sellerWallet",
    "Invalid wallet address") (by simp [transferRules])
  have hb := hvalid (!walletRe f.buyerWallet, "buyerWallet",
    "Invalid wallet address") (by simp [transferRules])
  have hd := hvalid (decide (f.sellerWallet ≠ "" ∧ f.buyerWallet ≠ "" ∧
      jsToLower f.sellerWallet = jsToLower f.buyerWallet), "buyerWallet",
    "Buyer wallet must be different from seller") (by simp [transferRules])
  simp only at hs hb hd
  have hs' : walletRe f.sellerWallet = true := by simpa using hs
  have hb' : walletRe f.buyerWallet = true := by simpa using hb
  refine ⟨hs', hb', ?_⟩
  intro heq
  have hded : (decide (f.sellerWallet ≠ "" ∧ f.buyerWallet ≠ "" ∧
      jsToLower f.sellerWallet = jsToLower f.buyerWallet)) = true :=
    decide_eq_true ⟨walletRe_ne_empty _ hs', walletRe_ne_empty _ hb', heq⟩
  rw [hded] at hd
  simp at hd


/-- Claim C1 counterexample: a fully validated, successful transfer whose
stored seller address is not the property's current owner address.  The
acting wallet `walletB` owns `PROP-1`, but the form's seller wallet field
holds `walletA`; the transfer succeeds and the Transfer row records
`walletA` as seller, which differs from the owner address `walletB`. -/
theorem transfer_seller_not_owner_cex :
    validateTransferForm validTransferForm allTransferDocs = [] ∧
    (submitTransfer okTransEnv true (some walletB) validTransferForm
        allTransferDocs baseState).receipt.isSome = true ∧
    baseState.dbProperties = [ownerRow] ∧
    ownerRow.property_id = validTransferForm.propertyId ∧
    (submitTransfer okTransEnv true (some walletB) validTransferForm
        allTransferDocs baseState).state.dbTransfers.map
        (fun t => t.seller_wallet) = [walletA] ∧
    walletA ≠ ownerRow.owner_wallet := by
  decide

/-- Claim C1 (amended): for every validated, successful transfer, the acting
identity's address — not necessarily the stored seller address — equals the
property's current owner address case-insensitively; the Transfer row stores
the form's seller and buyer wallets as given, and those two differ
case-insensitively. -/
theorem transfer_success_owner_auth (env : TransEnv) (addr : String)
    (f : TransferFormData) (docs : TransferDocuments) (s : HookState)
    (hconn : addr ≠ "")
    (hvalid : validateTransferForm f docs = [])
    (hsucc : (submitTransfer env true (some addr) f docs s).receipt.isSome =
      true) :
    ∃ property hash bn,
      s.dbProperties.find? (fun r => r.property_id = f.propertyId) =
        some property ∧
      jsToLower property.owner_wallet = jsToLower addr ∧
      (submitTransfer env true (some addr) f docs s).state.dbTransfers.head? =
        some (transRow env f hash bn) ∧
      (transRow env f hash bn).seller_wallet = f.sellerWallet ∧
      (transRow env f hash bn).buyer_wallet = f.buyerWallet ∧
      jsToLower f.sellerWallet ≠ jsToLower f.buyerWallet := by
  have hsub : submitTransfer env true (some addr) f docs s =
      transferProperty env true (some addr) f s := by
    unfold submitTransfer
    rw [if_neg (by simp [hvalid])]
  rw [hsub] at hsucc ⊢
  obtain ⟨property, hash, bn, hfetch, hfind, hown, hsettle, hins, hupd, heq⟩ :=
    transfer_success_spec env addr f s hconn hsucc
  obtain ⟨hws, hwb, hdiff⟩ := transfer_rules_pass f docs hvalid
  refine ⟨property, hash, bn, hfind, hown, ?_, rfl, rfl, hdiff⟩
  rw [heq]
  rfl

/-- Witness for the amended C1 theorem: the owner `walletB` transfers
`PROP-1` with seller field `walletA` and buyer `walletC`. -/
theorem transfer_success_owner_auth_witness :
    ∃ property hash bn,
      baseState.dbProperties.find?
        (fun r => r.property_id = validTransferForm.propertyId) =
        some property ∧
      jsToLower property.owner_wallet = jsToLower walletB ∧
      (submitTransfer okTransEnv true (some walletB) validTransferForm
        allTransferDocs baseState).state.dbTransfers.head? =
        some (transRow okTransEnv validTransferForm hash bn) ∧
      (transRow okTransEnv validTransferForm hash bn).seller_wallet =
        validTransferForm.sellerWallet ∧
      (transRow okTransEnv validTransferForm hash bn).buyer_wallet =
        validTransferForm.buyerWallet ∧
      jsToLower validTransferForm.sellerWallet ≠
        jsToLower validTransferForm.buyerWallet :=
  transfer_success_owner_auth okTransEnv walletB validTransferForm
    allTransferDocs baseState (by decide) (by decide) (by decide)


/-- Looking a property up after the owner-update map returns the first match
with its owner fields rewritten. -/
theorem find?_update_owner (l : List RegisteredProperty)
    (pid name wallet : String) :
    ((l.map fun p =>
        if p.propertyId = pid then
          { p with ownerAddress := wallet, ownerName := name }
        else p).find? fun q => q.propertyId = pid) =
      (l.find? fun q => q.propertyId = pid).map
        fun p => { p with ownerAddress := wallet, ownerName := name } := by
  induction l with
  | nil => rfl
  | cons a l ih =>
    by_cases ha : a.propertyId = pid
    · simp [List.find?_cons, ha]
    · simp [List.find?_cons, ha, ih]

/-- Claim C9: after a successful transfer of a property present in the local
session list, `getPropertyById` returns the buyer's name and address as the
current owner, and the transfers listing gains the new record in front of
all older ones. -/
theorem transfer_read_your_writes (env : TransEnv) (addr : String)
    (f : TransferFormData) (s : HookState) (p : RegisteredProperty)
    (hconn : addr ≠ "")
    (hsucc : (transferProperty env true (some addr) f s).receipt.isSome = true)
    (hlocal : getPropertyById s f.propertyId = some p) :
    getPropertyById (transferProperty env true (some addr) f s).state
        f.propertyId =
      some { p with ownerName := f.buyerName, ownerAddress := f.buyerWallet } ∧
    ∃ hash bn, env.settle = some (hash, bn) ∧
      (transferProperty env true (some addr) f s).state.transfers =
        transNewRecord env f hash bn :: s.transfers := by
  obtain ⟨property, hash, bn, hfetch, hfind, hown, hsettle, hins, hupd, heq⟩ :=
    transfer_success_spec env addr f s hconn hsucc
  rw [heq]
  refine ⟨?_, hash, bn, hsettle, rfl⟩
  show ((s.properties.map fun q =>
      if q.propertyId = f.propertyId then
        { q with ownerAddress := f.buyerWallet, ownerName := f.buyerName }
      else q).find? fun q => q.propertyId = f.propertyId) = _
  rw [find?_update_owner]
  rw [getPropertyById] at hlocal
  rw [hlocal]
  rfl


/-- Every `registerProperty` call leaves the processing flag false (the
guard path leaves the flag untouched, every other path resets it). -/
theorem register_isProcessing_reset (env : RegEnv) (isConnected : Bool)
    (address : Option String) (f : PropertyFormData)
    (documents : Option PropertyDocuments) (s : HookState)
    (h : s.isProcessing = false) :
    (registerProperty env isConnected address f documents s).state.isProcessing
      = false := by
  unfold registerProperty
  dsimp only
  split
  · exact h
  · repeat' split
    all_goals rfl

/-- Every `transferProperty` call leaves the processing flag false. -/
theorem transfer_isProcessing_reset (env : TransEnv) (isConnected : Bool)
    (address : Option String) (f : TransferFormData) (s : HookState)
    (h : s.isProcessing = false) :
    (transferProperty env isConnected address f s).state.isProcessing
      = false := by
  unfold transferProperty
  dsimp only
  split
  · exact h
  · repeat' split
    all_goals rfl


/-- Every failing registration path returns null. -/
theorem register_failure_null (env : RegEnv) (isConnected : Bool)
    (address : Option String) (f : PropertyFormData)
    (documents : Option PropertyDocuments) (s : HookState)
    (hfail : (!isConnected || jsFalsy address) = true ∨ env.settle = none ∨
      s.dbProperties.any (fun r => r.property_id = env.genId) = true ∨
      env.insertOk = false) :
    (registerProperty env isConnected address f documents s).receipt = none := by
  by_cases hg : (!isConnected || jsFalsy address) = true
  · simp [registerProperty, hg]
  · have hg' : (!isConnected || jsFalsy address) = false :=
      Bool.not_eq_true _ |>.mp hg
    rcases hfail with hx | hsettle | hdup | hins
    · exact absurd hx hg
    · simp [registerProperty, hg', hsettle]
    · cases hsettle : env.settle with
      | none => simp [registerProperty, hg', hsettle]
      | some p =>
        cases p with
        | mk hash bn => simp [registerProperty, hg', hsettle, hdup]
    · cases hsettle : env.settle with
      | none => simp [registerProperty, hg', hsettle]
      | some p =>
        cases p with
        | mk hash bn =>
          by_cases hdup :
            s.dbProperties.any (fun r => r.property_id = env.genId) = true
          · simp [registerProperty, hg', hsettle, hdup]
          · simp [registerProperty, hg', hsettle, hdup, hins]

/-- A transfer that returned a receipt passed every check. -/
theorem transfer_success_requires (env : TransEnv) (isConnected : Bool)
    (address : Option String) (f : TransferFormData) (s : HookState)
    (hsucc : (transferProperty env isConnected address f s).receipt.isSome =
      true) :
    (!isConnected || jsFalsy address) = false ∧ env.fetchOk = true ∧
    (∃ property,
      s.dbProperties.find? (fun r => r.property_id = f.propertyId) =
        some property ∧
      jsToLower property.owner_wallet = jsToLower (address.getD "")) ∧
    (∃ hash bn, env.settle = some (hash, bn)) ∧
    env.insertOk = true ∧ env.updateOk = true := by
  by_cases hg : (!isConnected || jsFalsy address) = true
  · rw [transferProperty] at hsucc
    simp [hg] at hsucc
  have hg' : (!isConnected || jsFalsy address) = false :=
    Bool.not_eq_true _ |>.mp hg
  by_cases hfetch : env.fetchOk = true
  case neg =>
    have hf : env.fetchOk = false := Bool.not_eq_true _ |>.mp hfetch
    rw [transferProperty] at hsucc
    simp [hg', hf] at hsucc
  cases hfind : s.dbProperties.find? (fun r => r.property_id = f.propertyId) with
  | none =>
    rw [transferProperty] at hsucc
    simp [hg', hfetch, hfind] at hsucc
  | some property =>
    by_cases hown :
      jsToLower property.owner_wallet = jsToLower (address.getD "")
    case neg =>
      rw [transferProperty] at hsucc
      simp [hg', hfetch, hfind, hown] at hsucc
    cases hsettle : env.settle with
    | none =>
      rw [transferProperty] at hsucc
      simp [hg', hfetch, hfind, hown, hsettle] at hsucc
    | some pr =>
      cases pr with
      | mk hash bn =>
        by_cases hins : env.insertOk = true
        case neg =>
          have hi : env.insertOk = false := Bool.not_eq_true _ |>.mp hins
          rw [transferProperty] at hsucc
          simp [hg', hfetch, hfind, hown, hsettle, hi] at hsucc
        by_cases hupd : env.updateOk = true
        case neg =>
          have hu : env.updateOk = false := Bool.not_eq_true _ |>.mp hupd
          rw [transferProperty] at hsucc
          simp [hg', hfetch, hfind, hown, hsettle, hins, hu] at hsucc
        exact ⟨hg', hfetch, ⟨property, rfl, hown⟩, ⟨hash, bn, rfl⟩, hins, hupd⟩

/-- Every failing transfer path returns null. -/
theorem transfer_failure_null (env : TransEnv) (isConnected : Bool)
    (address : Option String) (f : TransferFormData) (s : HookState)
    (hfail : (!isConnected || jsFalsy address) = true ∨ env.fetchOk = false ∨
      s.dbProperties.find? (fun r => r.property_id = f.propertyId) = none ∨
      (∃ property,
        s.dbProperties.find? (fun r => r.property_id = f.propertyId) =
          some property ∧
        jsToLower property.owner_wallet ≠ jsToLower (address.getD "")) ∨
      env.settle = none ∨ env.insertOk = false ∨ env.updateOk = false) :
    (transferProperty env isConnected address f s).receipt = none := by
  rcases hr : (transferProperty env isConnected address f s).receipt with _ | r
  · rfl
  · exfalso
    have hsucc : (transferProperty env isConnected address f s).receipt.isSome =
        true := by rw [hr]; rfl
    obtain ⟨hg, hfetch, ⟨property, hfind, hown⟩, ⟨hash, bn, hsettle⟩, hins, hupd⟩ :=
      transfer_success_requires env isConnected address f s hsucc
    rcases hfail with hx | hx | hx | ⟨property2, hfind2, hown2⟩ | hx | hx | hx
    · rw [hx] at hg
      exact Bool.true_eq_false ▸ hg ▸ rfl
    · rw [hx] at hfetch
      cases hfetch
    · rw [hx] at hfind
      cases hfind
    · rw [hfind] at hfind2
      cases hfind2
      exact hown2 hown
    · rw [hx] at hsettle
      cases hsettle
    · rw [hx] at hins
      cases hins
    · rw [hx] at hupd
      cases hupd

/-- Witness for C9: after `walletB` transfers `PROP-1`, the local lookup
shows the buyer as owner and the new record heads the transfer list. -/
theorem transfer_read_your_writes_witness :
    getPropertyById (transferProperty okTransEnv true (some walletB)
        validTransferForm baseState).state validTransferForm.propertyId =
      some { ownerRecord with
        ownerName := validTransferForm.buyerName
        ownerAddress := validTransferForm.buyerWallet } ∧
    ∃ hash bn, okTransEnv.settle = some (hash, bn) ∧
      (transferProperty okTransEnv true (some walletB) validTransferForm
        baseState).state.transfers =
        transNewRecord okTransEnv validTransferForm hash bn ::
          baseState.transfers :=
  transfer_read_your_writes okTransEnv walletB validTransferForm baseState
    ownerRecord (by decide) (by decide) (by decide)

/-! ### Claim C10 -/

/-- Claim C10: both public operations are total functions of their explicit
environment — every external failure is an environment outcome they handle,
so no exception reaches the caller; on every failure path (disconnected
identity, fetch error, missing property, unauthorized caller, settlement
failure, insert or update failure) they return null instead of a receipt;
and the processing flag is false after every call that started idle. -/
theorem ops_no_throw_null_reset (envR : RegEnv) (envT : TransEnv)
    (isConnected : Bool) (address : Option String) (fR : PropertyFormData)
    (docsR : Option PropertyDocuments) (fT : TransferFormData) (s : HookState)
    (h : s.isProcessing = false) :
    (registerProperty envR isConnected address fR docsR s).state.isProcessing
      = false ∧
    (transferProperty envT isConnected address fT s).state.isProcessing
      = false ∧
    ((!isConnected || jsFalsy address) = true ∨ envR.settle = none ∨
      s.dbProperties.any (fun r => r.property_id = envR.genId) = true ∨
      envR.insertOk = false →
      (registerProperty envR isConnected address fR docsR s).receipt = none) ∧
    ((!isConnected || jsFalsy address) = true ∨ envT.fetchOk = false ∨
      s.dbProperties.find? (fun r => r.property_id = fT.propertyId) = none ∨
      (∃ property,
        s.dbProperties.find? (fun r => r.property_id = fT.propertyId) =
          some property ∧
        jsToLower property.owner_wallet ≠ jsToLower (address.getD "")) ∨
      envT.settle = none ∨ envT.insertOk = false ∨ envT.updateOk = false →
      (transferProperty envT isConnected address fT s).receipt = none) :=
  ⟨register_isProcessing_reset envR isConnected address fR docsR s h,
   transfer_isProcessing_reset envT isConnected address fT s h,
   fun hfail => register_failure_null envR isConnected address fR docsR s hfail,
   fun hfail => transfer_failure_null envT isConnected address fT s hfail⟩

/-- Witness for C10 at a concrete idle session. -/
theorem ops_no_throw_null_reset_witness :
    (registerProperty okRegEnv true (some walletB) validRegForm
      (some allRegDocs) baseState).state.isProcessing = false ∧
    (transferProperty okTransEnv true (some walletB) validTransferForm
      baseState).state.isProcessing = false ∧
    ((!true || jsFalsy (some walletB)) = true ∨ okRegEnv.settle = none ∨
      baseState.dbProperties.any
        (fun r => r.property_id = okRegEnv.genId) = true ∨
      okRegEnv.insertOk = false →
      (registerProperty okRegEnv true (some walletB) validRegForm
        (some allRegDocs) baseState).receipt = none) ∧
    ((!true || jsFalsy (some walletB)) = true ∨ okTransEnv.fetchOk = false ∨
      baseState.dbProperties.find?
        (fun r => r.property_id = validTransferForm.propertyId) = none ∨
      (∃ property,
        baseState.dbProperties.find?
          (fun r => r.property_id = validTransferForm.propertyId) =
          some property ∧
        jsToLower property.owner_wallet ≠
          jsToLower ((some walletB).getD "")) ∨
      okTransEnv.settle = none ∨ okTransEnv.insertOk = false ∨
      okTransEnv.updateOk = false →
      (transferProperty okTransEnv true (some walletB) validTransferForm
        baseState).receipt = none) :=
  ops_no_throw_null_reset okRegEnv okTransEnv true (some walletB) validRegForm
    (some allRegDocs) validTransferForm baseState (by decide)

end EstateLedger
